import Mathlib

/-!
Shallow embedding of the recipe-discovery application.

Sources embedded here:
- src/index.tsx: the variant that issues the text and image generation
  requests concurrently with Promise.all and has a single catch block.
- src/unnamed/part_000: the variant with an API-key settings modal that
  issues the text request first and wraps the image request in an inner
  try/catch.
- src/api/chat.js (and src/unnamed/part_001): the server-side relay
  endpoint forwarding chat requests to the provider.

Provider calls are modelled by their outcomes: an environment record says
whether each request resolves or rejects and with what payload; the
orchestration functions are pure functions of the app state and that
environment, instrumented with flags recording which requests were issued.
-/

namespace RecipeApp

/-- Prefix test on character lists. -/
def charsStartWith : List Char → List Char → Bool
  | _, [] => true
  | [], _ :: _ => false
  | c :: cs, p :: ps => c == p && charsStartWith cs ps

/-- Occurrence test on character lists: the pattern occurs at some
position. -/
def charsContain : List Char → List Char → Bool
  | [], pat => charsStartWith [] pat
  | s@(_ :: rest), pat => charsStartWith s pat || charsContain rest pat

/-- Substring test, modelling the JavaScript String.prototype.includes used
in the catch block of src/unnamed/part_000 (lines 205-208). -/
def strIncludes (s pat : String) : Bool :=
  charsContain s.data pat.data

/-- Whitespace trimming from both ends, modelling the JavaScript
String.prototype.trim calls of the validation guard and of
handleSaveKey. -/
def jsTrim (s : String) : String :=
  String.mk (((s.data.dropWhile Char.isWhitespace).reverse.dropWhile
    Char.isWhitespace).reverse)

/-- JSON values, the codomain of JSON.parse. Numbers are modelled as
integers; no claim depends on fractional values. -/
inductive JsonVal where
  | str (s : String)
  | num (n : Int)
  | bool (b : Bool)
  | null
  | arr (elems : List JsonVal)
  | obj (fields : List (String × JsonVal))

/-- Field lookup on the key-value list of a parsed JSON object. -/
def lookupField : List (String × JsonVal) → String → Option JsonVal
  | [], _ => none
  | (k, v) :: rest, name => if k = name then some v else lookupField rest name

/-- Property access obj.name on a parsed JSON value: a field of an object
when present, undefined (none) otherwise, including on non-objects. -/
def jsonGet (j : JsonVal) (name : String) : Option JsonVal :=
  match j with
  | .obj fields => lookupField fields name
  | _ => none

/-- The Recipe record as produced by JSON.parse(text) as Recipe in both
frontend variants (src/index.tsx line 159, src/unnamed/part_000 line 177).
The TypeScript as-cast performs no runtime check, so every field is
whatever the parsed object holds at that key, possibly absent. -/
structure RecipeData where
  title : Option JsonVal
  summary : Option JsonVal
  cuisine : Option JsonVal
  difficulty : Option JsonVal
  totalTime : Option JsonVal
  calories : Option JsonVal
  ingredients : Option JsonVal
  steps : Option JsonVal
  rating : Option JsonVal
  reviewCount : Option JsonVal

/-- Reading the Recipe fields off a parsed JSON value (the as Recipe cast
followed by field accesses). -/
def asRecipe (j : JsonVal) : RecipeData where
  title := jsonGet j "title"
  summary := jsonGet j "summary"
  cuisine := jsonGet j "cuisine"
  difficulty := jsonGet j "difficulty"
  totalTime := jsonGet j "totalTime"
  calories := jsonGet j "calories"
  ingredients := jsonGet j "ingredients"
  steps := jsonGet j "steps"
  rating := jsonGet j "rating"
  reviewCount := jsonGet j "reviewCount"

/-- The final recipe record handed to setRecipe: the parsed data spread
together with the imageUrl field. -/
structure Recipe where
  data : RecipeData
  imageUrl : Option String

/-- FilterState from src/index.tsx lines 38-43 and src/unnamed/part_000
lines 36-41. -/
structure FilterState where
  cuisine : String
  timeLimit : String
  difficulty : String
  mainIngredient : String
deriving DecidableEq

/-- The keys of FilterState. -/
inductive FilterKey where
  | cuisine
  | timeLimit
  | difficulty
  | mainIngredient
deriving DecidableEq

/-- Dynamic field read fs[key]. -/
def FilterState.get (fs : FilterState) : FilterKey → String
  | .cuisine => fs.cuisine
  | .timeLimit => fs.timeLimit
  | .difficulty => fs.difficulty
  | .mainIngredient => fs.mainIngredient

/-- Computed-key spread update applied by toggleFilter. -/
def FilterState.set (fs : FilterState) (key : FilterKey) (v : String) : FilterState :=
  match key with
  | .cuisine => { fs with cuisine := v }
  | .timeLimit => { fs with timeLimit := v }
  | .difficulty => { fs with difficulty := v }
  | .mainIngredient => { fs with mainIngredient := v }

/-- toggleFilter from src/index.tsx lines 188-193 and src/unnamed/part_000
lines 218-223: the key is cleared when it already holds the value,
otherwise set to the value; other keys are carried over by the spread. -/
def toggleFilter (fs : FilterState) (key : FilterKey) (value : String) : FilterState :=
  fs.set key (if fs.get key = value then "" else value)

/-- JavaScript truthiness of a string-or-null value: null and the empty
string are falsy. -/
def truthyOpt (o : Option String) : Bool :=
  match o with
  | some s => !(s == "")
  | none => false

/-- Credential environment for src/unnamed/part_000: the localStorage slot
"gemini_api_key" and the build-time process.env.API_KEY value. -/
structure KeyStore where
  localKey : Option String
  envKey : Option String
deriving DecidableEq

/-- The startup credential resolution of src/unnamed/part_000 lines 81-95:
prefer the truthy localStorage value, then the truthy environment value;
with neither, the key is absent and the settings modal opens. -/
def loadKey (st : KeyStore) : Option String :=
  if truthyOpt st.localKey then st.localKey
  else if truthyOpt st.envKey then st.envKey
  else none

/-- handleSaveKey from src/unnamed/part_000 lines 97-106: the raw input is
trimmed and, when nonempty, persisted to localStorage. -/
def handleSaveKey (st : KeyStore) (input : String) : KeyStore :=
  let t := jsTrim input
  if t ≠ "" then { st with localKey := some t } else st

/-- handleClearKey from src/unnamed/part_000 lines 108-112: the
localStorage slot is removed. -/
def handleClearKey (st : KeyStore) : KeyStore :=
  { st with localKey := none }

/-! Provider call outcomes. A generateContent call either rejects with an
error message or resolves. For the text call the resolved value is
summarised by what the orchestration reads from it: the text field, which
is either falsy, a string that JSON.parse rejects, or a string that
JSON.parse turns into a JSON value. For the image call the resolved value
is summarised by the candidate parts that may carry inline image data. -/

/-- The body of a resolved text-generation response, as seen through
JSON.parse. -/
inductive TextBody where
  | empty
  | malformed (errMsg : String)
  | value (j : JsonVal)

/-- A part of the image response that may carry inlineData. -/
structure ImagePart where
  inlineData : Option (String × String)

/-- A resolved image-generation response: candidates[0].content.parts when
present. -/
structure ImageResp where
  parts : Option (List ImagePart)

/-- Extraction of the image URL from a resolved image response, from
src/unnamed/part_000 lines 191-196 and src/index.tsx lines 165-173: the
first part holding inlineData yields a data URI built from its mime type
and base64 payload; otherwise the URL stays undefined. -/
def extractImageUrl (r : ImageResp) : Option String :=
  match r.parts with
  | none => none
  | some parts =>
    match parts.find? (fun p => p.inlineData.isSome) with
    | some p =>
      match p.inlineData with
      | some (mime, data) => some ("data:" ++ mime ++ ";base64," ++ data)
      | none => none
    | none => none

/-- Outcomes of the two provider requests issued by a search. -/
structure CallEnv where
  textResult : Except String TextBody
  imageResult : Except String ImageResp

/-- Processing of the text response in src/unnamed/part_000 line 177:
JSON.parse(textResponse.text or "\x7b\x7d") as Recipe. A falsy text falls
back to the empty-object literal, so it parses; a malformed text makes
JSON.parse throw into the outer catch; no field of the parsed value is
checked. -/
def parseTextPart000 : TextBody → Except String RecipeData
  | .empty => .ok (asRecipe (.obj []))
  | .malformed m => .error m
  | .value j => .ok (asRecipe j)

/-- Processing of the text response in src/index.tsx lines 156-162: a falsy
text throws "Text generation failed"; otherwise JSON.parse runs, throwing
into the catch on malformed text; no field of the parsed value is
checked. -/
def parseTextIndex : TextBody → Except String RecipeData
  | .empty => .error "Text generation failed"
  | .malformed m => .error m
  | .value j => .ok (asRecipe j)

/-- The error taxonomy applied in the catch block of
src/unnamed/part_000. -/
inductive ErrClass where
  | invalidCredential
  | rateLimited
  | generationFailure
deriving DecidableEq

/-- Classification of a caught error message, from src/unnamed/part_000
lines 203-212: messages mentioning 403 or API_KEY_INVALID are credential
failures, then messages mentioning 429 are rate limits, anything else is a
generic generation failure. -/
def classifyCatch (m : String) : ErrClass :=
  if strIncludes m "403" || strIncludes m "API_KEY_INVALID" then .invalidCredential
  else if strIncludes m "429" then .rateLimited
  else .generationFailure

/-- Validation message of both variants (src/index.tsx line 74,
src/unnamed/part_000 line 121). -/
def validationMsg : String := "请输入菜名或主要食材"

/-- Invalid-credential message of src/unnamed/part_000 line 206. -/
def invalidKeyMsg : String := "API Key 无效。请检查设置。"

/-- Rate-limit message of src/unnamed/part_000 line 209. -/
def rateLimitMsg : String := "请求太频繁了，请稍后再试。"

/-- Generic failure message of src/unnamed/part_000 line 211, with the
falsy-message fallback. -/
def genFailMsg (m : String) : String :=
  "生成失败: " ++ (if m = "" then "未知错误" else m)

/-- Generic failure message of src/index.tsx line 182. -/
def indexFailMsg : String := "生成失败，请检查网络或重试。"

/-- Component state of the src/unnamed/part_000 App that handleSearch reads
or writes. -/
structure AppState where
  query : String
  filters : FilterState
  loading : Bool
  recipe : Option Recipe
  error : Option String
  apiKey : String
  showSettings : Bool

/-- Component state of the src/index.tsx App that handleSearch reads or
writes (this variant has no credential state). -/
structure IndexState where
  query : String
  filters : FilterState
  loading : Bool
  recipe : Option Recipe
  error : Option String

/-- Result of running a handleSearch invocation: the final component state
plus flags recording whether the text-generation and image-generation
requests were issued. -/
structure SearchOut (σ : Type) where
  state : σ
  textCalled : Bool
  imageCalled : Bool

/-- Effect of the catch block of src/unnamed/part_000 lines 203-212
followed by the finally block: the message is classified, the matching
error is set (reopening the settings modal on a credential failure), and
loading is cleared. -/
def applyCatchPart000 (s : AppState) (m : String) : AppState :=
  let s1 :=
    match classifyCatch m with
    | .invalidCredential => { s with error := some invalidKeyMsg, showSettings := true }
    | .rateLimited => { s with error := some rateLimitMsg }
    | .generationFailure => { s with error := some (genFailMsg m) }
  { s1 with loading := false }

/-- handleSearch of src/unnamed/part_000 lines 114-216. Guard order: an
empty apiKey opens settings and returns; then an empty trimmed query with
an empty (untrimmed) mainIngredient sets the validation message and
returns; otherwise loading is set, error and recipe cleared, the text
request issued and parsed (failures going to the catch block), then the
image request issued inside an inner try/catch whose failure leaves the
image URL undefined, and the merged recipe stored; finally clears
loading. -/
def handleSearchPart000 (s : AppState) (env : CallEnv) : SearchOut AppState :=
  if s.apiKey = "" then
    ⟨{ s with showSettings := true }, false, false⟩
  else if jsTrim s.query = "" ∧ s.filters.mainIngredient = "" then
    ⟨{ s with error := some validationMsg }, false, false⟩
  else
    let s1 : AppState := { s with loading := true, error := none, recipe := none }
    match env.textResult with
    | .error m => ⟨applyCatchPart000 s1 m, true, false⟩
    | .ok body =>
      match parseTextPart000 body with
      | .error m => ⟨applyCatchPart000 s1 m, true, false⟩
      | .ok data =>
        let imageUrl :=
          match env.imageResult with
          | .error _ => none
          | .ok r => extractImageUrl r
        ⟨{ s1 with recipe := some ⟨data, imageUrl⟩, loading := false }, true, true⟩

/-- handleSearch of src/index.tsx lines 72-186. After the validation guard,
both requests are created immediately and awaited through Promise.all, so
a rejection of either request reaches the single catch block, which sets
the one generic failure message; only when both resolve and the text body
parses is the merged recipe stored; finally clears loading. -/
def handleSearchIndex (s : IndexState) (env : CallEnv) : SearchOut IndexState :=
  if jsTrim s.query = "" ∧ s.filters.mainIngredient = "" then
    ⟨{ s with error := some validationMsg }, false, false⟩
  else
    let s1 : IndexState := { s with loading := true, error := none, recipe := none }
    let failed : IndexState := { s1 with error := some indexFailMsg, loading := false }
    match env.textResult with
    | .error _ => ⟨failed, true, true⟩
    | .ok body =>
      match env.imageResult with
      | .error _ => ⟨failed, true, true⟩
      | .ok imgResp =>
        match parseTextIndex body with
        | .error _ => ⟨failed, true, true⟩
        | .ok data =>
          ⟨{ s1 with recipe := some ⟨data, extractImageUrl imgResp⟩, loading := false },
            true, true⟩

/-! Output schema declarations handed to the text-generation call. -/

/-- Leaf and array types used by the response schemas. -/
inductive SchemaType where
  | string
  | number
  | arrayOfString
deriving DecidableEq

/-- A declarative output schema: the declared properties with their types,
and the list of required property names. -/
structure GenSchema where
  properties : List (String × SchemaType)
  required : List String
deriving DecidableEq

/-- responseSchema of src/index.tsx lines 106-129. -/
def responseSchemaIndex : GenSchema where
  properties :=
    [("title", .string), ("summary", .string), ("cuisine", .string),
     ("difficulty", .string), ("totalTime", .string), ("calories", .number),
     ("ingredients", .arrayOfString), ("steps", .arrayOfString),
     ("rating", .number), ("reviewCount", .string)]
  required :=
    ["title", "summary", "cuisine", "difficulty", "totalTime",
     "ingredients", "steps", "rating"]

/-- responseSchema of src/unnamed/part_000 lines 151-166. -/
def responseSchemaPart000 : GenSchema where
  properties :=
    [("title", .string), ("summary", .string), ("cuisine", .string),
     ("difficulty", .string), ("totalTime", .string), ("calories", .number),
     ("ingredients", .arrayOfString), ("steps", .arrayOfString),
     ("rating", .number), ("reviewCount", .string)]
  required := ["title", "summary", "ingredients", "steps"]

/-! User-interface entry points that reach handleSearch. Both variants
render the same two triggers: the submit button with the disabled
attribute bound to the loading flag (src/index.tsx lines 300-304,
src/unnamed/part_000 lines 352-356) and the query text input whose
onKeyDown handler calls handleSearch on the Enter key with no loading
guard (src/index.tsx lines 215-222, src/unnamed/part_000 lines
309-316). -/

/-- A user action on one of the controls wired to handleSearch. -/
inductive SearchTrigger where
  | searchButtonClick
  | inputKeyDown (key : String)

/-- Whether the action invokes handleSearch given the current loading flag:
a click on the button is suppressed by the browser while the button is
disabled, and the keydown handler fires handleSearch exactly on the Enter
key, with no dependence on loading. -/
def triggersSearch (loading : Bool) : SearchTrigger → Bool
  | .searchButtonClick => !loading
  | .inputKeyDown key => key == "Enter"

/-! The server-side relay endpoint, src/api/chat.js (the src/unnamed/
part_001 variant differs only in the forwarded model name). The upstream
JSON body on the success path is carried as the canonical text that
JSON.stringify of the parsed value produces. -/

/-- JSON string escaping as performed by JSON.stringify on the character
set that can appear here. -/
def jsEscapeChar (c : Char) : List Char :=
  if c = '"' then ['\\', '"']
  else if c = '\\' then ['\\', '\\']
  else if c = '\n' then ['\\', 'n']
  else if c = '\r' then ['\\', 'r']
  else if c = '\t' then ['\\', 't']
  else [c]

/-- JSON string escaping lifted to strings. -/
def jsEscape (s : String) : String :=
  String.mk ((s.data.map jsEscapeChar).flatten)

/-- JSON.stringify of an object with a single error field, used by the 405
and 500 responses of the relay. -/
def stringifyError (msg : String) : String :=
  "\x7b\"error\":\"" ++ jsEscape msg ++ "\"\x7d"

/-- JSON.stringify of the wrapper object built on a non-OK upstream
response (src/api/chat.js lines 37-43): an error field naming the upstream
status and a details field holding the upstream body text. -/
def stringifyProviderError (status : Nat) (details : String) : String :=
  "\x7b\"error\":\"Provider Error: " ++ toString status ++
    "\",\"details\":\"" ++ jsEscape details ++ "\"\x7d"

/-- The upstream response seen by the relay: the HTTP status, the raw body
text read by response.text, and the outcome of response.json, either a
parse-error message or the body as a JSON document (carried as its
canonical serialisation). -/
structure UpstreamResp where
  status : Nat
  bodyText : String
  jsonResult : Except String String

/-- The fetch-level truthiness of response.ok: status in the 2xx range. -/
def fetchOk (r : UpstreamResp) : Bool :=
  200 ≤ r.status && r.status ≤ 299

/-- An HTTP response produced by the relay. -/
structure HttpResp where
  status : Nat
  body : String
deriving DecidableEq

/-- The relay handler of src/api/chat.js. Inputs: the request method, the
outcome of req.json (an error message when the request body is not JSON),
and the outcome of the upstream fetch (an error message when the fetch
itself rejects). A non-POST method returns 405; a throw from req.json or
fetch reaches the catch and returns 500 with the error message; a non-OK
upstream response returns the upstream status with the stringified wrapper
object; an OK upstream response returns 200 with the upstream JSON body,
or 500 when response.json throws. -/
def relayHandler (method : String) (reqJson : Except String Unit)
    (fetchResult : Except String UpstreamResp) : HttpResp :=
  if method ≠ "POST" then
    ⟨405, stringifyError "Method Not Allowed"⟩
  else
    match reqJson with
    | .error m => ⟨500, stringifyError m⟩
    | .ok _ =>
      match fetchResult with
      | .error m => ⟨500, stringifyError m⟩
      | .ok r =>
        if !(fetchOk r) then
          ⟨r.status, stringifyProviderError r.status r.bodyText⟩
        else
          match r.jsonResult with
          | .error m => ⟨500, stringifyError m⟩
          | .ok body => ⟨200, body⟩

/-! Theorems. -/

/-- C8: for every FilterState and filter key, toggling the key to its
currently-active value leaves that key empty, toggling it to a different
value replaces the prior value with the new one, and every other filter
key is unchanged. -/
theorem toggleFilter_single_select (fs : FilterState) (key : FilterKey) (value : String) :
    (fs.get key = value → (toggleFilter fs key value).get key = "")
    ∧ (fs.get key ≠ value → (toggleFilter fs key value).get key = value)
    ∧ (∀ k, k ≠ key → (toggleFilter fs key value).get k = fs.get k) := by
  refine ⟨?_, ?_, ?_⟩
  · intro h
    cases key <;> simp [toggleFilter, FilterState.get, FilterState.set] at h ⊢ <;> simp [h]
  · intro h
    cases key <;> simp [toggleFilter, FilterState.get, FilterState.set] at h ⊢ <;> simp [h]
  · intro k hk
    cases key <;> cases k <;>
      simp_all [toggleFilter, FilterState.get, FilterState.set]

/-- Witness for toggleFilter_single_select at concrete filter states. -/
theorem toggleFilter_single_select_witness :
    (toggleFilter ⟨"川菜", "", "", ""⟩ .cuisine "川菜").get .cuisine = ""
    ∧ (toggleFilter ⟨"川菜", "", "", ""⟩ .cuisine "粤菜").get .cuisine = "粤菜"
    ∧ (toggleFilter ⟨"川菜", "", "", "鸡肉"⟩ .cuisine "粤菜").get .mainIngredient = "鸡肉" :=
  ⟨(toggleFilter_single_select ⟨"川菜", "", "", ""⟩ .cuisine "川菜").1 (by decide),
   (toggleFilter_single_select ⟨"川菜", "", "", ""⟩ .cuisine "粤菜").2.1 (by decide),
   (toggleFilter_single_select ⟨"川菜", "", "", "鸡肉"⟩ .cuisine "粤菜").2.2
     .mainIngredient (by decide)⟩

/-- C9: saving a non-blank token and then loading returns the same trimmed
token; clearing and then loading returns the absent credential when no
environment fallback exists, and the environment value when a truthy one
exists. -/
theorem credential_round_trip (st : KeyStore) (token : String) (h : jsTrim token ≠ "") :
    loadKey (handleSaveKey st token) = some (jsTrim token)
    ∧ (st.envKey = none → loadKey (handleClearKey st) = none)
    ∧ (∀ e, st.envKey = some e → e ≠ "" → loadKey (handleClearKey st) = some e) := by
  refine ⟨?_, ?_, ?_⟩
  · simp [handleSaveKey, loadKey, truthyOpt, h]
  · intro he
    simp [handleClearKey, loadKey, truthyOpt, he]
  · intro e he hne
    simp [handleClearKey, loadKey, truthyOpt, he, hne]

/-- Witness for credential_round_trip at concrete stores. -/
theorem credential_round_trip_witness :
    loadKey (handleSaveKey ⟨none, none⟩ " AIzaKey ") = some "AIzaKey"
    ∧ loadKey (handleClearKey (⟨some "oldKey", none⟩ : KeyStore)) = none
    ∧ loadKey (handleClearKey (⟨some "oldKey", some "envKey"⟩ : KeyStore)) = some "envKey" :=
  ⟨(credential_round_trip ⟨none, none⟩ " AIzaKey " (by decide)).1,
   (credential_round_trip ⟨some "oldKey", none⟩ " AIzaKey " (by decide)).2.1 rfl,
   (credential_round_trip ⟨some "oldKey", some "envKey"⟩ " AIzaKey " (by decide)).2.2
     "envKey" rfl (by decide)⟩

/-- C6: with a held credential, a blank or whitespace-only query together
with an empty main-ingredient filter makes handleSearch set the
validation message and return at once: neither request is issued and
every other piece of state, the recipe included, is untouched. Stated for
both variants; the index.tsx variant has no credential guard. -/
theorem empty_search_rejected (s : AppState) (si : IndexState) (env envi : CallEnv)
    (hk : s.apiKey ≠ "") (hq : jsTrim s.query = "") (hm : s.filters.mainIngredient = "")
    (hqi : jsTrim si.query = "") (hmi : si.filters.mainIngredient = "") :
    handleSearchPart000 s env = ⟨{ s with error := some validationMsg }, false, false⟩
    ∧ handleSearchIndex si envi = ⟨{ si with error := some validationMsg }, false, false⟩ := by
  constructor
  · simp [handleSearchPart000, hk, hq, hm]
  · simp [handleSearchIndex, hqi, hmi]

/-- Witness for empty_search_rejected: whitespace-only query, empty
main-ingredient filter, a configured key, and provider outcomes that are
never consulted. -/
theorem empty_search_rejected_witness :
    handleSearchPart000 ⟨"  ", ⟨"", "", "", ""⟩, false, none, none, "k1", false⟩
        ⟨.ok .empty, .error "down"⟩ =
      ⟨⟨"  ", ⟨"", "", "", ""⟩, false, none, some validationMsg, "k1", false⟩, false, false⟩
    ∧ handleSearchIndex ⟨"  ", ⟨"", "", "", ""⟩, false, none, none⟩
        ⟨.ok .empty, .error "down"⟩ =
      ⟨⟨"  ", ⟨"", "", "", ""⟩, false, none, some validationMsg⟩, false, false⟩ :=
  empty_search_rejected ⟨"  ", ⟨"", "", "", ""⟩, false, none, none, "k1", false⟩
    ⟨"  ", ⟨"", "", "", ""⟩, false, none, none⟩ ⟨.ok .empty, .error "down"⟩
    ⟨.ok .empty, .error "down"⟩ (by decide) (by decide) rfl (by decide) rfl

/-- C7: when the text-generation call rejects with a message the catch
block classifies as a credential failure, handleSearch of
src/unnamed/part_000 ends with the invalid-credential error, the settings
modal reopened, no recipe record, and loading cleared. -/
theorem auth_failure_reopens_settings (s : AppState) (env : CallEnv) (m : String)
    (hk : s.apiKey ≠ "") (hv : ¬(jsTrim s.query = "" ∧ s.filters.mainIngredient = ""))
    (ht : env.textResult = .error m) (hc : classifyCatch m = .invalidCredential) :
    (handleSearchPart000 s env).state.error = some invalidKeyMsg
    ∧ (handleSearchPart000 s env).state.showSettings = true
    ∧ (handleSearchPart000 s env).state.recipe = none
    ∧ (handleSearchPart000 s env).state.loading = false := by
  simp [handleSearchPart000, hk, hv, ht, applyCatchPart000, hc]

/-- Witness for auth_failure_reopens_settings: a 403 rejection of the text
call on a valid search. -/
theorem auth_failure_reopens_settings_witness :
    (handleSearchPart000 ⟨"红烧肉", ⟨"", "", "", ""⟩, false, none, none, "k1", false⟩
        ⟨.error "got status: 403", .ok ⟨none⟩⟩).state.error = some invalidKeyMsg
    ∧ (handleSearchPart000 ⟨"红烧肉", ⟨"", "", "", ""⟩, false, none, none, "k1", false⟩
        ⟨.error "got status: 403", .ok ⟨none⟩⟩).state.showSettings = true
    ∧ (handleSearchPart000 ⟨"红烧肉", ⟨"", "", "", ""⟩, false, none, none, "k1", false⟩
        ⟨.error "got status: 403", .ok ⟨none⟩⟩).state.recipe = none
    ∧ (handleSearchPart000 ⟨"红烧肉", ⟨"", "", "", ""⟩, false, none, none, "k1", false⟩
        ⟨.error "got status: 403", .ok ⟨none⟩⟩).state.loading = false :=
  auth_failure_reopens_settings ⟨"红烧肉", ⟨"", "", "", ""⟩, false, none, none, "k1", false⟩
    ⟨.error "got status: 403", .ok ⟨none⟩⟩ "got status: 403"
    (by decide) (by decide) rfl (by decide)

/-- C10: an empty query combined with a whitespace-only main-ingredient
filter slips past the validation guard, because the query is trimmed
before the emptiness check while the main-ingredient filter is compared
untrimmed: both variants proceed to issue the text-generation request and
set no validation error. -/
theorem whitespace_ingredient_bypasses_validation :
    (handleSearchIndex ⟨"", ⟨"", "", "", " "⟩, false, none, none⟩
        ⟨.ok (.value (.obj [])), .ok ⟨none⟩⟩).textCalled = true
    ∧ (handleSearchIndex ⟨"", ⟨"", "", "", " "⟩, false, none, none⟩
        ⟨.ok (.value (.obj [])), .ok ⟨none⟩⟩).state.error = none
    ∧ (handleSearchPart000 ⟨"", ⟨"", "", "", " "⟩, false, none, none, "k1", false⟩
        ⟨.ok (.value (.obj [])), .ok ⟨none⟩⟩).textCalled = true
    ∧ (handleSearchPart000 ⟨"", ⟨"", "", "", " "⟩, false, none, none, "k1", false⟩
        ⟨.ok (.value (.obj [])), .ok ⟨none⟩⟩).state.error = none := by
  refine ⟨rfl, rfl, rfl, rfl⟩

/-- C2 counterexample: with a search in flight (loading set), pressing
Enter in the query input still invokes handleSearch, so not every entry
point is disabled during the pending state. -/
theorem loading_enter_still_triggers :
    triggersSearch true (.inputKeyDown "Enter") = true := rfl

/-- C2 amended: while loading, the submit button no longer triggers
handleSearch, but the Enter key in the query input does, and handleSearch
itself has no in-flight guard: invoked on a loading state with a held key
and nonempty query, it still issues the text request. -/
theorem loading_guard_only_on_button (s : AppState) (env : CallEnv)
    (_hl : s.loading = true) (hk : s.apiKey ≠ "") (hq : jsTrim s.query ≠ "") :
    triggersSearch true .searchButtonClick = false
    ∧ triggersSearch true (.inputKeyDown "Enter") = true
    ∧ (handleSearchPart000 s env).textCalled = true := by
  refine ⟨rfl, rfl, ?_⟩
  have hv : ¬(jsTrim s.query = "" ∧ s.filters.mainIngredient = "") := fun h => hq h.1
  rcases env with ⟨tr, ir⟩
  cases tr with
  | error m => simp [handleSearchPart000, hk, hv]
  | ok body =>
    cases hp : parseTextPart000 body <;> simp [handleSearchPart000, hk, hv, hp]

/-- Witness for loading_guard_only_on_button: a loading state with a held
key and a pending second search triggered during flight. -/
theorem loading_guard_only_on_button_witness :
    triggersSearch true .searchButtonClick = false
    ∧ triggersSearch true (.inputKeyDown "Enter") = true
    ∧ (handleSearchPart000 ⟨"面条", ⟨"", "", "", ""⟩, true, none, none, "k1", false⟩
        ⟨.ok .empty, .ok ⟨none⟩⟩).textCalled = true :=
  loading_guard_only_on_button ⟨"面条", ⟨"", "", "", ""⟩, true, none, none, "k1", false⟩
    ⟨.ok .empty, .ok ⟨none⟩⟩ rfl (by decide) (by decide)

/-- C1 counterexample: in the src/index.tsx variant both requests are
awaited through one Promise.all, so with a successful, parseable text
response and a rejecting image request the search ends with no recipe and
the generic failure message — the image failure fails the whole
request. -/
theorem image_failure_fails_index_search :
    (handleSearchIndex ⟨"宫保鸡丁", ⟨"", "", "", ""⟩, false, none, none⟩
        ⟨.ok (.value (.obj [("title", .str "宫保鸡丁")])), .error "quota exceeded"⟩).state.recipe
      = none
    ∧ (handleSearchIndex ⟨"宫保鸡丁", ⟨"", "", "", ""⟩, false, none, none⟩
        ⟨.ok (.value (.obj [("title", .str "宫保鸡丁")])), .error "quota exceeded"⟩).state.error
      = some indexFailMsg := ⟨rfl, rfl⟩

/-- C1 amended: in the src/unnamed/part_000 variant the image request runs
inside its own try/catch, so a successful parsed text response together
with a rejecting image request still yields the merged recipe with the
non-image fields from the text response and no image URL, with no error
and loading cleared. -/
theorem image_failure_swallowed_part000 (s : AppState) (env : CallEnv) (body : TextBody)
    (data : RecipeData) (m : String)
    (hk : s.apiKey ≠ "") (hv : ¬(jsTrim s.query = "" ∧ s.filters.mainIngredient = ""))
    (ht : env.textResult = .ok body) (hp : parseTextPart000 body = .ok data)
    (hi : env.imageResult = .error m) :
    handleSearchPart000 s env =
      ⟨{ s with loading := false, error := none, recipe := some ⟨data, none⟩ },
        true, true⟩ := by
  obtain ⟨q, f, l, r, e, k, ss⟩ := s
  simp only [handleSearchPart000, ht, hp, hi]
  simp [hk, hv]

/-- Witness for image_failure_swallowed_part000: a concrete search whose
text call succeeds and whose image call rejects. -/
theorem image_failure_swallowed_part000_witness :
    handleSearchPart000 ⟨"鱼香肉丝", ⟨"川菜", "", "", ""⟩, false, none, none, "k1", false⟩
        ⟨.ok (.value (.obj [("title", .str "鱼香肉丝")])), .error "quota exceeded"⟩ =
      ⟨⟨"鱼香肉丝", ⟨"川菜", "", "", ""⟩, false,
          some ⟨asRecipe (.obj [("title", .str "鱼香肉丝")]), none⟩, none, "k1", false⟩,
        true, true⟩ :=
  image_failure_swallowed_part000
    ⟨"鱼香肉丝", ⟨"川菜", "", "", ""⟩, false, none, none, "k1", false⟩
    ⟨.ok (.value (.obj [("title", .str "鱼香肉丝")])), .error "quota exceeded"⟩
    (.value (.obj [("title", .str "鱼香肉丝")]))
    (asRecipe (.obj [("title", .str "鱼香肉丝")])) "quota exceeded"
    (by decide) (by decide) rfl rfl rfl

/-- C3 counterexample: the response body that is the empty JSON object is
missing every required field, yet the parse step of src/unnamed/part_000
accepts it without any failure, leaving title and the other fields
unset. -/
theorem missing_required_fields_accepted :
    parseTextPart000 (.value (.obj [])) = .ok (asRecipe (.obj []))
    ∧ (asRecipe (.obj [])).title = none
    ∧ (asRecipe (.obj [])).summary = none
    ∧ (asRecipe (.obj [])).ingredients = none
    ∧ (asRecipe (.obj [])).steps = none := ⟨rfl, rfl, rfl, rfl, rfl⟩

/-- C3 amended: the parse step accepts every well-formed JSON body,
leaving absent fields unset whether they are optional or required, and
fails into the catch block only on a malformed body (the index.tsx
variant additionally throws on an empty body); required-field enforcement
lives only in the schema declaration sent to the provider. -/
theorem parse_is_optimistic (j : JsonVal) (m : String) :
    parseTextPart000 (.value j) = .ok (asRecipe j)
    ∧ parseTextIndex (.value j) = .ok (asRecipe j)
    ∧ parseTextPart000 (.malformed m) = .error m
    ∧ parseTextIndex (.malformed m) = .error m
    ∧ parseTextPart000 .empty = .ok (asRecipe (.obj []))
    ∧ parseTextIndex .empty = .error "Text generation failed"
    ∧ (jsonGet j "cuisine" = none → (asRecipe j).cuisine = none)
    ∧ (jsonGet j "difficulty" = none → (asRecipe j).difficulty = none)
    ∧ (jsonGet j "totalTime" = none → (asRecipe j).totalTime = none)
    ∧ (jsonGet j "calories" = none → (asRecipe j).calories = none)
    ∧ (jsonGet j "rating" = none → (asRecipe j).rating = none)
    ∧ (jsonGet j "reviewCount" = none → (asRecipe j).reviewCount = none) := by
  refine ⟨rfl, rfl, rfl, rfl, rfl, rfl, ?_, ?_, ?_, ?_, ?_, ?_⟩ <;>
    intro h <;> simpa [asRecipe] using h

/-- Witness for parse_is_optimistic: a body holding only the required
fields, so every optional field is absent. -/
theorem parse_is_optimistic_witness :
    parseTextPart000 (.value (.obj [("title", .str "t")])) =
      .ok (asRecipe (.obj [("title", .str "t")]))
    ∧ (asRecipe (.obj [("title", .str "t")])).cuisine = none
    ∧ (asRecipe (.obj [("title", .str "t")])).rating = none :=
  ⟨(parse_is_optimistic (.obj [("title", .str "t")]) "x").1,
   (parse_is_optimistic (.obj [("title", .str "t")]) "x").2.2.2.2.2.2.1 rfl,
   (parse_is_optimistic (.obj [("title", .str "t")]) "x").2.2.2.2.2.2.2.2.2.2.1 rfl⟩

/-- C4 counterexample: the responseSchema of src/index.tsx lists cuisine
among its required fields, so the schema handed to the text call does not
mark exactly title, summary, ingredients and steps as required. -/
theorem index_schema_requires_more :
    "cuisine" ∈ responseSchemaIndex.required
    ∧ "cuisine" ∉ (["title", "summary", "ingredients", "steps"] : List String) := by
  decide

/-- C4 amended: both schemas declare the same ten typed properties; the
src/unnamed/part_000 schema marks exactly title, summary, ingredients and
steps as required, while the src/index.tsx schema additionally requires
cuisine, difficulty, totalTime and rating, leaving only calories and
reviewCount optional. -/
theorem schema_required_fields :
    responseSchemaPart000.required = ["title", "summary", "ingredients", "steps"]
    ∧ responseSchemaIndex.required =
        ["title", "summary", "cuisine", "difficulty", "totalTime",
         "ingredients", "steps", "rating"]
    ∧ responseSchemaPart000.properties = responseSchemaIndex.properties
    ∧ responseSchemaPart000.properties.map Prod.fst =
        ["title", "summary", "cuisine", "difficulty", "totalTime", "calories",
         "ingredients", "steps", "rating", "reviewCount"] := by
  refine ⟨rfl, rfl, rfl, rfl⟩

/-- C5 counterexample: on a non-OK upstream response the relay keeps the
upstream status but returns a JSON wrapper object, not the upstream body
verbatim. -/
theorem relay_error_body_not_verbatim :
    (relayHandler "POST" (.ok ()) (.ok ⟨401, "bad key", .error "parse"⟩)).status = 401
    ∧ (relayHandler "POST" (.ok ()) (.ok ⟨401, "bad key", .error "parse"⟩)).body
        ≠ "bad key"
    ∧ (relayHandler "POST" (.ok ()) (.ok ⟨401, "bad key", .error "parse"⟩)).body
        = "\x7b\"error\":\"Provider Error: 401\",\"details\":\"bad key\"\x7d" := by
  refine ⟨rfl, by decide, by decide⟩

/-- C5 amended: a non-POST request yields 405; an uncaught relay error
(request-body parse or fetch rejection) yields 500 with the error
message; a non-OK upstream response yields the upstream status code with
a JSON wrapper whose details field carries the upstream body text; an OK
upstream response yields 200 with the upstream JSON body. -/
theorem relay_behaviour (method : String) (rj : Except String Unit)
    (fr : Except String UpstreamResp) (r : UpstreamResp) (m em body : String) :
    (method ≠ "POST" → relayHandler method rj fr =
      ⟨405, stringifyError "Method Not Allowed"⟩)
    ∧ relayHandler "POST" (.error em) fr = ⟨500, stringifyError em⟩
    ∧ relayHandler "POST" (.ok ()) (.error m) = ⟨500, stringifyError m⟩
    ∧ (fetchOk r = false → relayHandler "POST" (.ok ()) (.ok r) =
        ⟨r.status, stringifyProviderError r.status r.bodyText⟩)
    ∧ (fetchOk r = true → r.jsonResult = .ok body →
        relayHandler "POST" (.ok ()) (.ok r) = ⟨200, body⟩) := by
  refine ⟨?_, ?_, ?_, ?_, ?_⟩
  · intro h
    simp [relayHandler, h]
  · simp [relayHandler]
  · simp [relayHandler]
  · intro h
    simp [relayHandler, h]
  · intro h hj
    simp [relayHandler, h, hj]

/-- Witness for relay_behaviour at concrete requests and upstream
responses. -/
theorem relay_behaviour_witness :
    relayHandler "GET" (.ok ()) (.error "x") = ⟨405, stringifyError "Method Not Allowed"⟩
    ∧ relayHandler "POST" (.error "bad json") (.error "x") =
        ⟨500, stringifyError "bad json"⟩
    ∧ relayHandler "POST" (.ok ()) (.error "fetch failed") =
        ⟨500, stringifyError "fetch failed"⟩
    ∧ relayHandler "POST" (.ok ()) (.ok ⟨429, "slow down", .error "p"⟩) =
        ⟨429, stringifyProviderError 429 "slow down"⟩
    ∧ relayHandler "POST" (.ok ())
        (.ok ⟨200, "raw", .ok "\x7b\"choices\":[]\x7d"⟩) =
        ⟨200, "\x7b\"choices\":[]\x7d"⟩ :=
  ⟨(relay_behaviour "GET" (.ok ()) (.error "x")
      ⟨429, "slow down", .error "p"⟩ "x" "bad json" "y").1 (by decide),
   (relay_behaviour "GET" (.ok ()) (.error "x")
      ⟨429, "slow down", .error "p"⟩ "x" "bad json" "y").2.1,
   (relay_behaviour "GET" (.ok ()) (.error "fetch failed")
      ⟨429, "slow down", .error "p"⟩ "fetch failed" "bad json" "y").2.2.1,
   (relay_behaviour "GET" (.ok ()) (.error "x")
      ⟨429, "slow down", .error "p"⟩ "x" "bad json" "y").2.2.2.1 (by decide),
   (relay_behaviour "GET" (.ok ()) (.error "x")
      ⟨200, "raw", .ok "\x7b\"choices\":[]\x7d"⟩ "x" "bad json"
      "\x7b\"choices\":[]\x7d").2.2.2.2 (by decide) rfl⟩

end RecipeApp
